import Mathlib

/-!
# Shallow embedding of the ISAC services architecture

This file embeds the control and coordination logic of the ISAC sensing
pipeline (exposure_service.py, raf_service.py, secf_service.py, plus the
interfaces of spf_service.py and su_service.py) and proves properties of it.

Python floats are modelled as `ℚ`; all comparisons performed by the code
(`avg_unc > 40.0`) are exact at the values of interest, so the rational
model is faithful for them. Python dicts and lists are modelled as
association lists and `List`. HTTP exchanges are modelled by explicit
outcome values: an exception raised by `requests.post`/`raise_for_status`
is an `Except.error` carrying the exception's message.
-/

/-! ## Access policy (exposure_service.py, AuthorizationService) -/

/-- `AuthorizationService`: `self._allowed` maps a client id to its set of
allowed areas (the Python constructor turns lists into sets; membership is
the only operation used, so a list models the set). -/
structure AuthorizationService where
  allowed : List (String × List String)
deriving DecidableEq, Repr

/-- `self._allowed.get(client_id)`: `none` models Python `None` for an
unknown key. -/
def AuthorizationService.lookup (a : AuthorizationService) (cid : String) :
    Option (List String) :=
  (a.allowed.find? (fun p => p.1 = cid)).map Prod.snd

/-- The `PermissionError` message raised by `AuthorizationService.check`. -/
def permissionMsg (cid area : String) : String :=
  "Client \x27" ++ cid ++ "\x27 is not allowed to request sensing in area \x27"
    ++ area ++ "\x27"

/-- `AuthorizationService.check`: raises `PermissionError` iff the client is
unknown (`areas is None`) or the area is not in the client's granted set.
It reads `self._allowed` and returns no modified service: it has no side
effects on the grant relation. -/
def AuthorizationService.check (a : AuthorizationService) (cid area : String) :
    Except String Unit :=
  match a.lookup cid with
  | none => .error (permissionMsg cid area)
  | some areas => if area ∈ areas then .ok () else .error (permissionMsg cid area)

/-- The `AUTHZ` instance built at module load of exposure_service.py. -/
def AUTHZ : AuthorizationService :=
  ⟨[("client-A", ["room-101"]), ("client-B", ["room-101", "room-102"])]⟩

/-! ## Data model shared by RAF, SeCF, SPF and SU -/

/-- `CSISample` pydantic model. -/
structure CSISample where
  bin : Int
  ls_re : ℚ
  ls_im : ℚ
deriving DecidableEq, Repr

/-- `CSIFrame` pydantic model. -/
structure CSIFrame where
  timestamp : String
  suId : String
  samples : List CSISample
deriving DecidableEq, Repr

/-- `HumanPresenceResult` pydantic model (secf_service.py / spf_service.py). -/
structure HumanPresenceResult where
  timestamp : String
  humanPresence : Bool
  uncertaintyPercent : ℚ
deriving DecidableEq, Repr

/-- `Capability` pydantic model (raf_service.py / su_service.py). -/
structure Capability where
  suId : String
  areaId : String
  modes : List Nat
  numBins : Nat
deriving DecidableEq, Repr

/-! ## requests library behaviour -/

/-- The message of the `requests.exceptions.HTTPError` raised by
`Response.raise_for_status()` for a status in 400..599: it is built from
the status code, the reason phrase and the URL only — the response body is
not part of it. -/
def httpErrorMsg (status : Nat) (reason url : String) : String :=
  if 400 ≤ status ∧ status < 500 then
    toString status ++ " Client Error: " ++ reason ++ " for url: " ++ url
  else
    toString status ++ " Server Error: " ++ reason ++ " for url: " ++ url

/-- Reason phrases the uvicorn servers of this repository send for the
status codes that occur in it. -/
def reasonOf (status : Nat) : String :=
  if status = 403 then "Forbidden"
  else if status = 404 then "Not Found"
  else if status = 422 then "Unprocessable Entity"
  else "Internal Server Error"

/-! ## RAF (raf_service.py) -/

/-- One entry of `SUS_CONFIG`. -/
structure SuConfig where
  suId : String
  areaId : String
  baseUrl : String
deriving DecidableEq, Repr

/-- The static `SUS_CONFIG` of raf_service.py (one SU; the source comments
that more can be added, so functions below take the configuration as an
argument). -/
def SUS_CONFIG : List SuConfig :=
  [⟨"SU-1", "room-101", "http://localhost:8101"⟩]

/-- `_sus_for_area`: the config entries whose `areaId` matches. -/
def susForArea (cfg : List SuConfig) (area : String) : List SuConfig :=
  cfg.filter (fun su => su.areaId = area)

/-- Outcome of one `requests.post(su.baseUrl + "/csi", ...)` exchange as
`get_measurements` sees it:
* `failure cause` — an exception was raised by `post`/`raise_for_status`/
  `json()` (timeout, connection error, non-2xx status, unparsable body);
* `reply framesField` — a 2xx response with a JSON object body;
  `framesField = none` models a body with no "frames" key (then
  `data.get("frames", [])` yields `[]`), and each list element is the
  outcome of `CSIFrame(**f)` (`Except.error` models a pydantic
  `ValidationError` raised for that element). -/
inductive SuCallResult where
  | failure (cause : String)
  | reply (framesField : Option (List (Except String CSIFrame)))
deriving Repr

/-- Errors with which a `/measurements` request to the RAF terminates:
* `noCoverage area` — the explicit `HTTPException(404, "No SUs for area …")`;
* `unhandledExc suId cause` — an exception raised while exchanging with (or
  validating frames from) the unit `suId` propagates uncaught out of
  `get_measurements`; FastAPI turns it into a generic 500 response. -/
inductive RafError where
  | noCoverage (area : String)
  | unhandledExc (suId : String) (cause : String)
deriving DecidableEq, Repr

/-- The status code of the RAF's HTTP response for each error. -/
def rafStatus : RafError → Nat
  | .noCoverage _ => 404
  | .unhandledExc _ _ => 500

/-- The `for f in data.get("frames", []): all_frames.append(CSIFrame(**f))`
loop for one unit: the first element whose `CSIFrame(**f)` raises aborts
the whole request with that exception. -/
def decodeFrames (suId : String) :
    List (Except String CSIFrame) → Except RafError (List CSIFrame)
  | [] => .ok []
  | .error c :: _ => .error (.unhandledExc suId c)
  | .ok f :: rest => (decodeFrames suId rest).map (f :: ·)

/-- The `for su in sus:` loop of `get_measurements`: units are contacted
sequentially in configuration order; an exception at any unit aborts the
request; otherwise each unit's decoded frames are appended in response
order. -/
def collectFrames (net : SuConfig → Nat → Nat → SuCallResult)
    (mode numSamples : Nat) :
    List SuConfig → Except RafError (List CSIFrame)
  | [] => .ok []
  | su :: rest =>
    match net su mode numSamples with
    | .failure cause => .error (.unhandledExc su.suId cause)
    | .reply framesField =>
      match decodeFrames su.suId (framesField.getD []) with
      | .error e => .error e
      | .ok fs => (collectFrames net mode numSamples rest).map (fs ++ ·)

/-- `get_measurements`: `net su mode numSamples` is the outcome of the POST
to `su.baseUrl + "/csi"` with payload `{"mode": mode, "numFrames":
numSamples}`. Note: the handler consults only `SUS_CONFIG` and `net`; no
capability data is read. -/
def getMeasurements (cfg : List SuConfig) (net : SuConfig → Nat → Nat → SuCallResult)
    (area : String) (suMode numSamples : Nat) : Except RafError (List CSIFrame) :=
  let sus := susForArea cfg area
  if sus.isEmpty then .error (.noCoverage area)
  else collectFrames net suMode numSamples sus

/-! ## SeCF (secf_service.py) -/

/-- URL of the RAF measurements endpoint as SeCF builds it. -/
def RAF_MEASUREMENTS_URL : String := "http://localhost:8200/measurements"

/-- URL of the SeCF sensing endpoint as the exposure function builds it. -/
def SECF_SENSING_URL : String := "http://localhost:8400/sensing-requests"

/-- An `HTTPException(status_code, detail)` with which a SeCF request
terminates. -/
structure SecfFailure where
  status : Nat
  detail : String
deriving DecidableEq, Repr

/-- `SensingControlResponse` pydantic model: `currentTopology` is the
string `"monostatic"` or `"multistatic"`. -/
structure SensingControlResponse where
  topologySwitched : Bool
  currentTopology : String
  results : List HumanPresenceResult
deriving DecidableEq, Repr

/-- `avg_unc = sum(r.uncertaintyPercent for r in results) / len(results)`
(only evaluated by the code after `results` was checked non-empty). -/
def avgUncertainty (results : List HumanPresenceResult) : ℚ :=
  (results.map (·.uncertaintyPercent)).sum / (results.length : ℚ)

/-- Lines 83–93 of secf_service.py: the topology decision step. It is a
function of exactly the current `CURRENT_TOPOLOGY` string and `avg_unc`;
`topology_switched` starts `False` and is set `True` only on a state
change. Returns (new state, topology_switched). -/
def topologyDecide (current : String) (avgUnc : ℚ) : String × Bool :=
  if avgUnc > 40 then
    if current ≠ "multistatic" then ("multistatic", true) else (current, false)
  else
    if current ≠ "monostatic" then ("monostatic", true) else (current, false)

/-- `handle_sensing_request`, orchestrating the RAF call, the SPF call and
the topology decision. State passing makes the mutable global
`CURRENT_TOPOLOGY` explicit: the argument `state` is its value on entry,
the first component of the result its value when the handler returns.
* `rafOutcome` is the outcome of the POST to the RAF (an `Except.error`
  makes `raise_for_status` raise and the handler answer
  `HTTPException(500, "RAF error: " + str(e))`, where `str(e)` is the
  `HTTPError` message built from the RAF's status line — the RAF's JSON
  `detail` body is not part of it);
* `spf` is the outcome of the POST of the frames to the SPF, an
  `Except.error cause` giving `HTTPException(500, "SPF error: " + cause)`;
  on success, `r_spf.json().get("results", [])` parsed into results
  (a body without a "results" key yields `.ok []`). -/
def handle_sensing_request (state : String)
    (rafOutcome : Except RafError (List CSIFrame))
    (spf : List CSIFrame → Except String (List HumanPresenceResult)) :
    String × Except SecfFailure SensingControlResponse :=
  match rafOutcome with
  | .error e =>
      (state, .error ⟨500, "RAF error: " ++
        httpErrorMsg (rafStatus e) (reasonOf (rafStatus e)) RAF_MEASUREMENTS_URL⟩)
  | .ok frames =>
      match spf frames with
      | .error cause => (state, .error ⟨500, "SPF error: " ++ cause⟩)
      | .ok results =>
          if results.isEmpty then
            (state, .error ⟨500, "No SPF results"⟩)
          else
            let d := topologyDecide state (avgUncertainty results)
            (d.1, .ok ⟨d.2, d.1, results⟩)

/-! ## Edge gateway (exposure_service.py) -/

/-- The JSON body `secf_data` read by the edge gateway from a successful
SeCF response; each field is read with `.get(key, default)`, so each may
be absent. -/
structure SecfData where
  topologySwitched : Option Bool
  currentTopology : Option String
  results : Option (List HumanPresenceResult)
deriving DecidableEq, Repr

/-- `HumanPresenceSensingResponse` pydantic model. -/
structure HumanPresenceSensingResponse where
  clientId : String
  areaId : String
  topologySwitched : Bool
  currentTopology : String
  results : List HumanPresenceResult
deriving DecidableEq, Repr

/-- An HTTP failure as the external caller of the edge gateway observes
it: status code plus `detail` string of the `HTTPException`. -/
structure ExternalFailure where
  status : Nat
  detail : String
deriving DecidableEq, Repr

/-- `detect_human_presence`:
1. the authorization check; a `PermissionError` becomes
   `HTTPException(403, str(e))`;
2. the POST to SeCF; when SeCF answers a non-2xx status,
   `raise_for_status` raises and the handler answers
   `HTTPException(500, "SeCF error: " + str(e))` — `str(e)` is built from
   SeCF's status line and URL only, SeCF's JSON `detail` body is lost;
3. on success, response shaping with `.get` defaults:
   `topologySwitched` defaults to `False`, `currentTopology` to
   `"unknown"`, `results` to `[]`. -/
def detect_human_presence (authz : AuthorizationService) (clientId areaId : String)
    (secfCall : Except SecfFailure SecfData) :
    Except ExternalFailure HumanPresenceSensingResponse :=
  match authz.check clientId areaId with
  | .error msg => .error ⟨403, msg⟩
  | .ok _ =>
    match secfCall with
    | .error f =>
        .error ⟨500, "SeCF error: " ++ httpErrorMsg f.status (reasonOf f.status) SECF_SENSING_URL⟩
    | .ok d =>
        .ok ⟨clientId, areaId, d.topologySwitched.getD false,
          d.currentTopology.getD "unknown", d.results.getD []⟩

/-- Serialization of a SeCF handler outcome into what the edge gateway
reads: on success FastAPI serializes the full `SensingControlResponse`
(every field present), on failure the `SecfFailure` status reaches the
edge gateway's `raise_for_status`. -/
def secfToEdge (r : String × Except SecfFailure SensingControlResponse) :
    Except SecfFailure SecfData :=
  match r.2 with
  | .error f => .error f
  | .ok resp => .ok ⟨some resp.topologySwitched, some resp.currentTopology, some resp.results⟩

/-- End-to-end composition: one external request through authorization,
SeCF orchestration (with explicit topology state) and response shaping. -/
def externalObservation (authz : AuthorizationService) (clientId areaId : String)
    (state : String) (rafOutcome : Except RafError (List CSIFrame))
    (spf : List CSIFrame → Except String (List HumanPresenceResult)) :
    Except ExternalFailure HumanPresenceSensingResponse :=
  detect_human_presence authz clientId areaId
    (secfToEdge (handle_sensing_request state rafOutcome spf))

/-! ## Trace of repeated decision steps (for idempotence) -/

/-- The side of the threshold a mean uncertainty selects: the state the
decision step always moves to (or stays in). -/
def targetOf (u : ℚ) : String :=
  if u > 40 then "multistatic" else "monostatic"

/-- Outputs of consecutive invocations of the decision step, each starting
from the state the previous one left behind. -/
def decideTrace (state : String) : List ℚ → List (String × Bool)
  | [] => []
  | u :: us =>
    let r := topologyDecide state u
    r :: decideTrace r.1 us

/-! ## Interleaving model of the unguarded topology state (secf_service.py)

`CURRENT_TOPOLOGY` is a bare module-level global with no lock; FastAPI runs
the synchronous `handle_sensing_request` handlers of concurrent requests on
separate threadpool threads, and CPython may switch threads between any two
bytecodes. Within lines 83–93 the relevant switch point is between the
comparison `CURRENT_TOPOLOGY != target` (which loads the global) and the
assignment `CURRENT_TOPOLOGY = target`. The model below runs two requests,
splitting each one's decision step into those two atomic actions. -/

/-- Shared global plus each task's local data: `snap#` is the value of
`CURRENT_TOPOLOGY` task `#` loaded for its comparison (`none` before the
load), `rep#` the task's `topology_switched` report (`none` before the
decision completes). -/
structure RaceState where
  g : String
  snap0 : Option String
  snap1 : Option String
  rep0 : Option Bool
  rep1 : Option Bool
deriving DecidableEq, Repr

/-- The atomic actions of the two tasks: loading the global for the
comparison, and performing the compare-and-assign based on that load. -/
inductive RaceAction where
  | load0
  | load1
  | store0
  | store1
deriving DecidableEq, Repr

/-- One interleaving step: `u0`, `u1` are the two requests' mean
uncertainties. A `store` before the task's `load` is a program-order
violation and leaves the state unchanged. -/
def raceStep (u0 u1 : ℚ) (s : RaceState) : RaceAction → RaceState
  | .load0 => { s with snap0 := some s.g }
  | .load1 => { s with snap1 := some s.g }
  | .store0 =>
    match s.snap0 with
    | none => s
    | some snap =>
      if snap ≠ targetOf u0 then { s with g := targetOf u0, rep0 := some true }
      else { s with rep0 := some false }
  | .store1 =>
    match s.snap1 with
    | none => s
    | some snap =>
      if snap ≠ targetOf u1 then { s with g := targetOf u1, rep1 := some true }
      else { s with rep1 := some false }

/-- Run a schedule of interleaved actions from an initial global state. -/
def runRace (u0 u1 : ℚ) (init : String) (sched : List RaceAction) : RaceState :=
  sched.foldl (raceStep u0 u1) ⟨init, none, none, none, none⟩

/-! ## Theorems -/

/-- The decision step always lands in the state selected by the mean
uncertainty and reports a switch exactly when the state changed. This
identity holds for every string the state cell could hold. -/
theorem topologyDecide_eq (s : String) (u : ℚ) :
    topologyDecide s u = (targetOf u, if s = targetOf u then false else true) := by
  unfold topologyDecide targetOf
  by_cases h : (40 : ℚ) < u
  · by_cases hs : s = "multistatic" <;> simp [h, hs]
  · by_cases hs : s = "monostatic" <;> simp [h, hs]

/-- C1: the Topology Controller's decision step follows the symmetric
single-threshold hysteresis rule: above 40.0 it moves to `"multistatic"`
(reporting a switch iff it was not there already), at or below 40.0 it
moves to `"monostatic"` likewise; a mean uncertainty of exactly 40.0 in
`"monostatic"` does not switch. The decision is a function of only the
current state and the mean uncertainty, as `topologyDecide`'s type shows. -/
theorem topologyDecide_hysteresis (cur : String) (u : ℚ) :
    ((40 : ℚ) < u → cur ≠ "multistatic" → topologyDecide cur u = ("multistatic", true)) ∧
    (u ≤ 40 → cur ≠ "monostatic" → topologyDecide cur u = ("monostatic", true)) ∧
    ((40 : ℚ) < u → cur = "multistatic" → topologyDecide cur u = (cur, false)) ∧
    (u ≤ 40 → cur = "monostatic" → topologyDecide cur u = (cur, false)) ∧
    topologyDecide "monostatic" 40 = ("monostatic", false) := by
  refine ⟨fun h hne => ?_, fun h hne => ?_, fun h he => ?_, fun h he => ?_, ?_⟩
  · simp [topologyDecide, h, hne]
  · simp [topologyDecide, not_lt.mpr h, hne]
  · subst he; simp [topologyDecide, h]
  · subst he; simp [topologyDecide, not_lt.mpr h]
  · norm_num [topologyDecide]

/-- Witness for C1 at the spec's example: state `"monostatic"`, mean
uncertainty 55 switches to `"multistatic"`. -/
theorem topologyDecide_hysteresis_witness :
    topologyDecide "monostatic" 55 = ("multistatic", true) :=
  (topologyDecide_hysteresis "monostatic" 55).1 (by norm_num) (by decide)

/-- C2: whenever the client is unknown to the grant relation or the area
is not in the client's granted set, `check` raises a `PermissionError`
carrying the offending client and area. An unknown client satisfies the
hypothesis vacuously, so it is denied for every area (deny-by-default);
`check` returns no modified service, so it has no side effects on the
grant relation. -/
theorem check_denies_unlisted (a : AuthorizationService) (cid area : String)
    (h : ∀ areas, a.lookup cid = some areas → area ∉ areas) :
    a.check cid area = .error (permissionMsg cid area) := by
  unfold AuthorizationService.check
  cases hl : a.lookup cid with
  | none => rfl
  | some areas => simp [h areas hl]

/-- Witness for C2: the unknown client `"client-C"` is denied `"room-101"`. -/
theorem check_denies_unlisted_witness :
    AUTHZ.check "client-C" "room-101" = .error (permissionMsg "client-C" "room-101") :=
  check_denies_unlisted AUTHZ "client-C" "room-101"
    (fun _ hl => by simp [AUTHZ, AuthorizationService.lookup, List.find?] at hl)

/-- Helper: once the state sits on the side selected by the inputs, every
further same-side invocation leaves it there and reports no switch. -/
theorem decideTrace_settled (u : ℚ) (us : List ℚ)
    (h : ∀ v ∈ us, ((40 : ℚ) < v ↔ (40 : ℚ) < u)) :
    decideTrace (targetOf u) us = us.map (fun _ => (targetOf u, false)) := by
  induction us with
  | nil => rfl
  | cons v vs ih =>
    have hv : targetOf v = targetOf u := by
      have := h v (List.mem_cons_self v vs)
      simp [targetOf, this]
    have step : topologyDecide (targetOf u) v = (targetOf u, false) := by
      rw [topologyDecide_eq, hv]; simp
    simp only [decideTrace, step, List.map]
    exact congrArg _ (ih (fun w hw => h w (List.mem_cons_of_mem v hw)))

/-- C8: for a run of consecutive decision-step invocations whose mean
uncertainties all lie on the same side of 40.0, the first invocation
settles the state on that side (reporting a switch iff the state actually
changed) and every later invocation leaves the state unchanged and reports
`topologySwitched = false`. -/
theorem decideTrace_idempotent (s : String) (u : ℚ) (us : List ℚ)
    (h : ∀ v ∈ us, ((40 : ℚ) < v ↔ (40 : ℚ) < u)) :
    decideTrace s (u :: us) =
      (targetOf u, if s = targetOf u then false else true)
        :: us.map (fun _ => (targetOf u, false)) := by
  simp only [decideTrace, topologyDecide_eq]
  exact congrArg _ (decideTrace_settled u us h)

/-- Witness for C8 at the spec's example values: from `"monostatic"`, the
run 55, 55, 45 switches once and then reports `false` twice. -/
theorem decideTrace_idempotent_witness :
    decideTrace "monostatic" [55, 55, 45] =
      [("multistatic", true), ("multistatic", false), ("multistatic", false)] := by
  have h := decideTrace_idempotent "monostatic" 55 [55, 45]
    (by intro v hv; fin_cases hv <;> norm_num)
  rw [h]; norm_num [targetOf]; decide

/-- C9: the `CURRENT_TOPOLOGY` read-decide-write sequence is NOT executed
under mutual exclusion: with both requests carrying mean uncertainty 55
from initial state `"monostatic"`, the interleaving in which both threads
load the global before either stores makes BOTH report
`topologySwitched = true` for the one logical monostatic→multistatic
transition, while the serialized schedule makes only the first report it. -/
theorem topology_race_double_switch :
    (runRace 55 55 "monostatic" [.load0, .load1, .store0, .store1]).rep0 = some true ∧
    (runRace 55 55 "monostatic" [.load0, .load1, .store0, .store1]).rep1 = some true ∧
    (runRace 55 55 "monostatic" [.load0, .load1, .store0, .store1]).g = "multistatic" ∧
    (runRace 55 55 "monostatic" [.load0, .store0, .load1, .store1]).rep0 = some true ∧
    (runRace 55 55 "monostatic" [.load0, .store0, .load1, .store1]).rep1 = some false := by
  refine ⟨?_, ?_, ?_, ?_, ?_⟩ <;> decide

/-- C10: when a successful SeCF body lacks both `topologySwitched` and
`currentTopology`, the edge gateway still answers success, substituting
`false` and the out-of-contract string `"unknown"`. -/
theorem detect_defaults_missing_fields (cid area : String)
    (results : List HumanPresenceResult)
    (h : AUTHZ.check cid area = .ok ()) :
    detect_human_presence AUTHZ cid area (.ok ⟨none, none, some results⟩) =
      .ok ⟨cid, area, false, "unknown", results⟩ ∧
    "unknown" ∉ ["monostatic", "multistatic"] := by
  refine ⟨?_, by decide⟩
  simp [detect_human_presence, h]

/-- Witness for C10: client `"client-A"` on `"room-101"` with an empty
results list. -/
theorem detect_defaults_missing_fields_witness :
    detect_human_presence AUTHZ "client-A" "room-101" (.ok ⟨none, none, some []⟩) =
      .ok ⟨"client-A", "room-101", false, "unknown", []⟩ :=
  (detect_defaults_missing_fields "client-A" "room-101" [] (by rfl)).1

/-- Helper: decoding a list of well-formed frame objects yields exactly
those frames. -/
theorem decodeFrames_ok (suId : String) (fs : List CSIFrame) :
    decodeFrames suId (fs.map Except.ok) = .ok fs := by
  induction fs with
  | nil => rfl
  | cons f rest ih => simp [decodeFrames, ih, Except.map]

/-- Helper: when every contacted unit answers with well-formed frames, the
loop concatenates them in unit order, each unit's frames in response
order. -/
theorem collectFrames_concat (net : SuConfig → Nat → Nat → SuCallResult)
    (mode n : Nat) (frames : SuConfig → List CSIFrame) (sus : List SuConfig)
    (hnet : ∀ su ∈ sus, net su mode n = .reply (some ((frames su).map Except.ok))) :
    collectFrames net mode n sus = .ok (sus.flatMap frames) := by
  induction sus with
  | nil => rfl
  | cons su rest ih =>
    have h1 := hnet su (List.mem_cons_self su rest)
    have h2 := ih (fun s hs => hnet s (List.mem_cons_of_mem su hs))
    simp [collectFrames, h1, decodeFrames_ok, h2, Except.map]

/-- Helper: the full aggregation under the same assumption, given
coverage. -/
theorem getMeasurements_concat_aux (cfg : List SuConfig)
    (net : SuConfig → Nat → Nat → SuCallResult) (area : String) (mode n : Nat)
    (frames : SuConfig → List CSIFrame)
    (hcov : susForArea cfg area ≠ [])
    (hnet : ∀ su ∈ susForArea cfg area,
      net su mode n = .reply (some ((frames su).map Except.ok))) :
    getMeasurements cfg net area mode n = .ok ((susForArea cfg area).flatMap frames) := by
  have hempty : (susForArea cfg area).isEmpty = false := by
    cases hs : susForArea cfg area with
    | nil => exact absurd hs hcov
    | cons a l => rfl
  rw [getMeasurements]
  simp only [hempty, Bool.false_eq_true, if_false]
  exact collectFrames_concat net mode n frames _ hnet

/-- C6: for an area with coverage, when every covering unit answers
well-formed frames, the aggregated batch is exactly the concatenation of
each unit's frames in unit-registration (configuration) order, and within
each unit in that unit's response order — no deduplication, dropping, or
timestamp reordering. The loop is sequential, so there is no completion
order other than the registration order. -/
theorem getMeasurements_concat (cfg : List SuConfig)
    (net : SuConfig → Nat → Nat → SuCallResult) (area : String) (mode n : Nat)
    (frames : SuConfig → List CSIFrame)
    (hcov : susForArea cfg area ≠ [])
    (hnet : ∀ su ∈ susForArea cfg area,
      net su mode n = .reply (some ((frames su).map Except.ok))) :
    getMeasurements cfg net area mode n = .ok ((susForArea cfg area).flatMap frames) :=
  getMeasurements_concat_aux cfg net area mode n frames hcov hnet

/-- Demo fixtures: two units A then B registered for the same area, each
returning two frames. -/
def suA : SuConfig := ⟨"SU-A", "room-7", "http://localhost:8101"⟩

def suB : SuConfig := ⟨"SU-B", "room-7", "http://localhost:8102"⟩

def frameA1 : CSIFrame := ⟨"tA1", "SU-A", [⟨0, 1, 0⟩]⟩

def frameA2 : CSIFrame := ⟨"tA2", "SU-A", [⟨0, 2, 0⟩]⟩

def frameB1 : CSIFrame := ⟨"tB1", "SU-B", [⟨0, 3, 0⟩]⟩

def frameB2 : CSIFrame := ⟨"tB2", "SU-B", [⟨0, 4, 0⟩]⟩

def demoFrames (su : SuConfig) : List CSIFrame :=
  if su.suId = "SU-A" then [frameA1, frameA2] else [frameB1, frameB2]

def demoNet (su : SuConfig) (_mode _numSamples : Nat) : SuCallResult :=
  .reply (some ((demoFrames su).map Except.ok))

/-- Witness for C6: with units A then B registered, each returning two
frames, the batch is `[A1, A2, B1, B2]`. -/
theorem getMeasurements_concat_witness :
    getMeasurements [suA, suB] demoNet "room-7" 3 2 =
      .ok [frameA1, frameA2, frameB1, frameB2] := by
  have h := getMeasurements_concat [suA, suB] demoNet "room-7" 3 2 demoFrames
    (by decide) (fun su _ => rfl)
  exact h.trans (by rfl)

/-- A capability assignment declaring only mode 1 for every unit — used to
exhibit that `get_measurements` never consults capabilities. -/
def capsDemo (su : SuConfig) : Capability := ⟨su.suId, su.areaId, [1], 4⟩

def demoFrame1 : CSIFrame := ⟨"2024-01-01T00:00:00", "SU-1", [⟨0, 1, 2⟩]⟩

def demoNet1 (_su : SuConfig) (_mode _numSamples : Nat) : SuCallResult :=
  .reply (some [Except.ok demoFrame1])

/-- C4 counterexample: with the repository's own `SUS_CONFIG`, a
capability declaring only mode 1 for the covering unit, and requested mode
2 (declared by no covering unit), `get_measurements` does not fail with
any UnsupportedMode error — no such error exists in the code — but
dispatches to the unit and returns its frames. -/
theorem getMeasurements_no_unsupported_mode :
    (2 ∉ (capsDemo ⟨"SU-1", "room-101", "http://localhost:8101"⟩).modes) ∧
    getMeasurements SUS_CONFIG demoNet1 "room-101" 2 1 = .ok [demoFrame1] := by
  exact ⟨by decide, rfl⟩

/-- C4 amended: `get_measurements` performs no mode-vs-capability
validation at all. For every capability assignment and every requested
mode — even one declared by no covering unit — once coverage exists the
handler proceeds straight to per-unit dispatch and, when the units answer,
returns their frames; the only check preceding dispatch is the coverage
check. (The conclusion does not depend on `caps` or on `_hmode`: the
capability data is never read.) -/
theorem getMeasurements_ignores_capabilities (cfg : List SuConfig)
    (net : SuConfig → Nat → Nat → SuCallResult) (area : String) (mode n : Nat)
    (caps : SuConfig → Capability) (frames : SuConfig → List CSIFrame)
    (_hmode : ∀ su ∈ susForArea cfg area, mode ∉ (caps su).modes)
    (hcov : susForArea cfg area ≠ [])
    (hnet : ∀ su ∈ susForArea cfg area,
      net su mode n = .reply (some ((frames su).map Except.ok))) :
    getMeasurements cfg net area mode n = .ok ((susForArea cfg area).flatMap frames) :=
  getMeasurements_concat_aux cfg net area mode n frames hcov hnet

/-- Witness for the amended C4: the single configured unit, capability
`[1]`, requested mode 2: the batch with its frame is returned. -/
theorem getMeasurements_ignores_capabilities_witness :
    getMeasurements SUS_CONFIG demoNet1 "room-101" 2 1 = .ok [demoFrame1] := by
  have h := getMeasurements_ignores_capabilities SUS_CONFIG demoNet1 "room-101" 2 1
    capsDemo (fun _ => [demoFrame1]) (by decide) (by decide) (fun _ _ => rfl)
  exact h.trans (by rfl)

/-- Helper: an exception at the first unit whose exchange raises aborts
the whole loop with that unit's id and cause, no matter how many units
already contributed frames. -/
theorem collectFrames_fail (net : SuConfig → Nat → Nat → SuCallResult)
    (mode n : Nat) (frames : SuConfig → List CSIFrame)
    (pre : List SuConfig) (su : SuConfig) (post : List SuConfig) (cause : String)
    (hpre : ∀ p ∈ pre, net p mode n = .reply (some ((frames p).map Except.ok)))
    (hfail : net su mode n = .failure cause) :
    collectFrames net mode n (pre ++ su :: post) =
      .error (.unhandledExc su.suId cause) := by
  induction pre with
  | nil => simp [collectFrames, hfail]
  | cons p rest ih =>
    have h1 := hpre p (List.mem_cons_self p rest)
    have h2 := ih (fun q hq => hpre q (List.mem_cons_of_mem p hq))
    simp [collectFrames, h1, decodeFrames_ok, h2, Except.map]

/-- C7 amended: if any covering unit's exchange raises (timeout,
non-success status, connection error), and every unit contacted before it
answered well-formed frames, the entire aggregation fails with an
exception carrying the failing unit's id and cause — no partial batch is
returned. (The unamended claim fails only for one malformed-response
shape, exhibited in the counterexample: a 2xx body without a "frames" key
is silently treated as zero frames.) -/
theorem getMeasurements_unit_failure_aborts (cfg : List SuConfig)
    (net : SuConfig → Nat → Nat → SuCallResult) (area : String) (mode n : Nat)
    (frames : SuConfig → List CSIFrame)
    (pre : List SuConfig) (su : SuConfig) (post : List SuConfig) (cause : String)
    (harea : susForArea cfg area = pre ++ su :: post)
    (hpre : ∀ p ∈ pre, net p mode n = .reply (some ((frames p).map Except.ok)))
    (hfail : net su mode n = .failure cause) :
    getMeasurements cfg net area mode n = .error (.unhandledExc su.suId cause) := by
  rw [getMeasurements]
  simp only [harea]
  have hempty : (pre ++ su :: post).isEmpty = false := by
    cases pre <;> rfl
  simp only [hempty, Bool.false_eq_true, if_false]
  exact collectFrames_fail net mode n frames pre su post cause hpre hfail

/-- Witness for the amended C7: the single configured unit times out; the
request fails with its id and the cause. -/
theorem getMeasurements_unit_failure_aborts_witness :
    getMeasurements SUS_CONFIG (fun _ _ _ => .failure "timeout") "room-101" 3 1 =
      .error (.unhandledExc "SU-1" "timeout") := by
  exact getMeasurements_unit_failure_aborts SUS_CONFIG
    (fun _ _ _ => .failure "timeout") "room-101" 3 1 (fun _ => []) []
    ⟨"SU-1", "room-101", "http://localhost:8101"⟩ [] "timeout"
    (by decide) (fun p hp => absurd hp (List.not_mem_nil p)) rfl

/-- Unit A answers 200 with a JSON object that has no "frames" key; B
answers two well-formed frames. -/
def netMissingA (su : SuConfig) (_mode _numSamples : Nat) : SuCallResult :=
  if su.suId = "SU-A" then .reply none
  else .reply (some [Except.ok frameB1, Except.ok frameB2])

/-- C7 counterexample: unit A's response is malformed with respect to the
`CSIResponse` contract (no "frames" field), yet the aggregation does not
fail: `data.get("frames", [])` treats it as zero frames and a batch
omitting A's contribution is returned. -/
theorem getMeasurements_partial_on_missing_frames_key :
    netMissingA suA 3 2 = .reply none ∧
    getMeasurements [suA, suB] netMissingA "room-7" 3 2 =
      .ok [frameB1, frameB2] := by
  exact ⟨rfl, rfl⟩

/-- C5: the SeCF handler mutates the topology state only in the decision
step, which runs after every error check: (1) on every error outcome the
state on return equals the state on entry; (2) an area with zero
registered units makes the composed RAF call fail with the 404 NoCoverage
error and the handler answer the corresponding RAF error with the state
unchanged; (3) an empty inference result batch terminates the request with
the `"No SPF results"` error, state unchanged — never a switch to a
default state. -/
theorem secf_state_unchanged_on_error (state : String)
    (rafOutcome : Except RafError (List CSIFrame))
    (spf : List CSIFrame → Except String (List HumanPresenceResult)) :
    (∀ f, (handle_sensing_request state rafOutcome spf).2 = .error f →
      (handle_sensing_request state rafOutcome spf).1 = state) ∧
    (∀ cfg net mode n area, susForArea cfg area = [] →
      handle_sensing_request state (getMeasurements cfg net area mode n) spf =
        (state, .error ⟨500,
          "RAF error: " ++ httpErrorMsg 404 (reasonOf 404) RAF_MEASUREMENTS_URL⟩)) ∧
    (∀ frames, rafOutcome = .ok frames → spf frames = .ok [] →
      handle_sensing_request state rafOutcome spf =
        (state, .error ⟨500, "No SPF results"⟩)) := by
  refine ⟨?_, ?_, ?_⟩
  · intro f hf
    cases rafOutcome with
    | error e => rfl
    | ok frames =>
      cases hspf : spf frames with
      | error c => simp [handle_sensing_request, hspf]
      | ok results =>
        by_cases hres : results.isEmpty
        · simp [handle_sensing_request, hspf, hres]
        · exfalso
          simp [handle_sensing_request, hspf, hres] at hf
  · intro cfg net mode n area hzero
    have : getMeasurements cfg net area mode n = .error (.noCoverage area) := by
      rw [getMeasurements]
      simp [hzero]
    rw [this]
    rfl
  · intro frames hraf hspf
    subst hraf
    simp [handle_sensing_request, hspf]

/-- Witness for C5: area `"room-999"` has no unit in the repository's
`SUS_CONFIG`; the request fails with the RAF 404-derived error and the
state `"monostatic"` is unchanged. -/
theorem secf_state_unchanged_on_error_witness :
    handle_sensing_request "monostatic"
        (getMeasurements SUS_CONFIG demoNet "room-999" 3 1) (fun _ => .ok []) =
      ("monostatic", .error ⟨500,
        "RAF error: " ++ httpErrorMsg 404 (reasonOf 404) RAF_MEASUREMENTS_URL⟩) :=
  (secf_state_unchanged_on_error "monostatic" (.ok []) (fun _ => .ok [])).2.1
    SUS_CONFIG demoNet 3 1 "room-999" (by decide)

/-- C3 counterexample: NoCoverage and a unit failure are distinct error
kinds, yet an authorized caller observes the byte-for-byte identical
external failure for both: SeCF answers each with status 500, and the
edge gateway's `detail` is built from SeCF's status line and URL only
(the SeCF response body is not part of the `HTTPError` message). -/
theorem edge_error_kinds_collapse :
    (RafError.noCoverage "room-101" ≠ RafError.unhandledExc "SU-1" "timeout") ∧
    externalObservation AUTHZ "client-A" "room-101" "monostatic"
        (.error (.noCoverage "room-101")) (fun _ => .ok []) =
      .error ⟨500, "SeCF error: " ++ httpErrorMsg 500 (reasonOf 500) SECF_SENSING_URL⟩ ∧
    externalObservation AUTHZ "client-A" "room-101" "monostatic"
        (.error (.unhandledExc "SU-1" "timeout")) (fun _ => .ok []) =
      .error ⟨500, "SeCF error: " ++ httpErrorMsg 500 (reasonOf 500) SECF_SENSING_URL⟩ := by
  exact ⟨by decide, rfl, rfl⟩

/-- C3 amended: a policy denial is surfaced to the caller as HTTP 403
carrying the denial message, and is therefore distinguishable from every
upstream failure (all HTTP 500); but within the upstream kinds the
distinction is lost: every failing SeCF orchestration outcome has status
500, and the edge gateway maps any failing SeCF status-500 response to the
one fixed external failure, independent of which error kind caused it. -/
theorem edge_failure_taxonomy (cid area state : String)
    (rafOutcome : Except RafError (List CSIFrame))
    (spf : List CSIFrame → Except String (List HumanPresenceResult)) :
    (∀ msg, AUTHZ.check cid area = .error msg →
      ∀ secfCall, detect_human_presence AUTHZ cid area secfCall = .error ⟨403, msg⟩) ∧
    (∀ f, (handle_sensing_request state rafOutcome spf).2 = .error f →
      f.status = 500) ∧
    (AUTHZ.check cid area = .ok () →
      ∀ f : SecfFailure, f.status = 500 →
        detect_human_presence AUTHZ cid area (.error f) =
          .error ⟨500, "SeCF error: " ++ httpErrorMsg 500 (reasonOf 500) SECF_SENSING_URL⟩) := by
  refine ⟨?_, ?_, ?_⟩
  · intro msg h secfCall
    simp [detect_human_presence, h]
  · intro f hf
    cases rafOutcome with
    | error e =>
      simp [handle_sensing_request] at hf
      rw [← hf]
    | ok frames =>
      cases hspf : spf frames with
      | error c =>
        simp [handle_sensing_request, hspf] at hf
        rw [← hf]
      | ok results =>
        by_cases hres : results.isEmpty
        · simp [handle_sensing_request, hspf, hres] at hf
          rw [← hf]
        · exfalso
          simp [handle_sensing_request, hspf, hres] at hf
  · intro hok f h500
    simp [detect_human_presence, hok, h500]

/-- Witness for the amended C3: the unknown client `"client-C"` observes
the 403 policy failure; an authorized client observes the fixed 500
failure for a status-500 SeCF error. -/
theorem edge_failure_taxonomy_witness :
    detect_human_presence AUTHZ "client-C" "room-101" (.ok ⟨none, none, none⟩) =
      .error ⟨403, permissionMsg "client-C" "room-101"⟩ ∧
    detect_human_presence AUTHZ "client-A" "room-101" (.error ⟨500, "No SPF results"⟩) =
      .error ⟨500, "SeCF error: " ++ httpErrorMsg 500 (reasonOf 500) SECF_SENSING_URL⟩ := by
  constructor
  · exact (edge_failure_taxonomy "client-C" "room-101" "monostatic" (.ok [])
      (fun _ => .ok [])).1 (permissionMsg "client-C" "room-101") rfl _
  · exact (edge_failure_taxonomy "client-A" "room-101" "monostatic" (.ok [])
      (fun _ => .ok [])).2.2 rfl ⟨500, "No SPF results"⟩ rfl
